import Mathlib

/-!
Shallow embedding of the core of `src/fitness_app.py` (a Streamlit fitness
tracker backed by Firestore) and proofs about it.

Conventions of the embedding:
* Python numbers are modelled as rationals (`ℚ`); the source never relies on
  binary-float artefacts in the properties treated here.
* Calendar dates and timestamps are modelled as integer day numbers, with the
  convention that day 0 is a Monday (so pandas `dayofweek` is `d mod 7`,
  Monday = 0).  Record dates carry no time component, matching the source,
  which stores dates as `"%Y-%m-%d"` strings.
* The Streamlit session state is an explicit structure; the callback
  `save_workout_callback` becomes a function from session state to the
  updated session state paired with the record handed to `add_workout`
  (`none` when `add_workout` is not called).
* The Dashboard page's aggregation (pandas `resample('W-MON')` etc.) becomes
  explicit list computations; `pd.Timestamp.now()` becomes an explicit
  `now : ℤ` argument recording the clock reading at the moment the page runs.
-/

namespace FitTrack

/-- Truncation toward zero on rationals, as Python's `int(x)` conversion. -/
def pyTrunc (q : ℚ) : ℤ := if q < 0 then ⌈q⌉ else ⌊q⌋

/-- Python's `f"{n:02d}"`: decimal rendering of an integer, left-padded with a
zero to width 2 (a negative sign counts toward the width, as in Python). -/
def pad2 (n : ℤ) : String := if 0 ≤ n ∧ n < 10 then "0" ++ toString n else toString n

/-- Round to the nearest integer, ties to even, as Python's float formatting. -/
def roundHalfEven (q : ℚ) : ℤ :=
  if 1 / 2 < Int.fract q then ⌊q⌋ + 1
  else if Int.fract q < 1 / 2 then ⌊q⌋
  else if ⌊q⌋ % 2 = 0 then ⌊q⌋ else ⌊q⌋ + 1

/-- Python's `f"{x:.1f}"` on our rational model: one digit after the decimal
point, nearest-ties-to-even rounding. -/
def fmt1 (q : ℚ) : String :=
  let n := roundHalfEven (q * 10)
  if n < 0 then "-" ++ toString ((-n) / 10) ++ "." ++ toString ((-n) % 10)
  else toString (n / 10) ++ "." ++ toString (n % 10)

/-- Pace computation of the Running branch, `fitness_app.py` lines 107-110:
`pace_decimal = duration / distance`, `minutes = int(pace_decimal)`,
`seconds = int((pace_decimal - minutes) * 60)`, then
`f"{minutes}:{seconds:02d} /km"`. -/
def running_pace (duration distance : ℚ) : String :=
  let pace_decimal := duration / distance
  let minutes := pyTrunc pace_decimal
  let seconds := pyTrunc ((pace_decimal - (minutes : ℚ)) * 60)
  toString minutes ++ ":" ++ pad2 seconds ++ " /km"

/-- Speed computation of the Cycling branch, lines 114-115:
`speed = distance / (duration / 60)`, then `f"{speed:.1f} km/h"`. -/
def cycling_speed (distance duration : ℚ) : String :=
  let speed := distance / (duration / 60)
  fmt1 speed ++ " km/h"

/-- The Streamlit session-state fields read or written by
`save_workout_callback` (lines 73-135). -/
structure SessionState where
  date : ℤ
  category : String
  duration : ℚ
  notes : String
  rpe : ℤ
  subtype_run : String
  subtype_ride : String
  structure_input : String
  distance : ℚ
  distance_cycle : ℚ
  distance_swim : ℚ
  manual_pace : Bool
  pace_input : String
  confirm_save : Bool
  warning_msg : Option String
  success_msg : Option String
deriving DecidableEq, Repr

/-- The workout record handed to `add_workout` (lines 37-51); `id` and
`created_at` are assigned by the store and absent here. -/
structure WorkoutRecord where
  date : ℤ
  category : String
  sub_type : String
  duration_min : ℚ
  distance_km : ℚ
  pace : String
  «structure» : String
  rpe : ℤ
  notes : String
deriving DecidableEq, Repr

/-- The warning message set when the confirmation checkbox is off (line 75). -/
def confirmWarning : String := "⚠️ Please check 'Ready to Save' to confirm."

/-- Embedding of `save_workout_callback` (lines 73-135).  Returns the updated
session state together with the record passed to `add_workout`, or `none`
when the callback returns early without persisting anything. -/
def save_workout_callback (s : SessionState) : SessionState × Option WorkoutRecord :=
  if s.confirm_save = false then
    ({ s with warning_msg := some confirmWarning }, none)
  else
    -- lines 85-95: sub_type / structure selection
    let sub_type :=
      if s.category = "Running" then s.subtype_run
      else if s.category = "Cycling" then s.subtype_ride
      else "Normal"
    let structure_val :=
      if s.category = "Running" then
        (if s.subtype_run = "Workout" then s.structure_input else "")
      else if s.category = "Cycling" then
        (if s.subtype_ride = "Workout" then s.structure_input else "")
      else ""
    -- lines 97-117: distance and pace
    let distance :=
      if s.category = "Running" then s.distance
      else if s.category = "Cycling" then s.distance_cycle
      else if s.category = "Swimming" then s.distance_swim
      else 0
    let pace_str :=
      if s.category = "Running" then
        (if s.manual_pace then s.pace_input
         else if 0 < s.distance then running_pace s.duration s.distance
         else "N/A")
      else if s.category = "Cycling" then
        (if 0 < s.distance_cycle ∧ 0 < s.duration then
           cycling_speed s.distance_cycle s.duration
         else "N/A")
      else "N/A"
    -- line 120: add_workout(date, category, sub_type, duration, distance, pace_str, structure, rpe, notes)
    let record : WorkoutRecord :=
      { date := s.date, category := s.category, sub_type := sub_type,
        duration_min := s.duration, distance_km := distance, pace := pace_str,
        «structure» := structure_val, rpe := s.rpe, notes := s.notes }
    -- lines 122-135: messages and form reset
    let s2 := { s with
      success_msg := some ("✅ Saved " ++ sub_type ++ " (" ++ s.category ++ ") to Cloud!"),
      warning_msg := none,
      duration := 30, notes := "", confirm_save := false, manual_pace := false,
      pace_input := "", rpe := 5, structure_input := "",
      distance := 0, distance_cycle := 0, distance_swim := 0 }
    (s2, some record)

/-- A workout record as seen by the Dashboard page after `load_data` (only
the fields the aggregation reads). -/
structure AggRecord where
  date : ℤ
  category : String
  duration_min : ℚ
  distance_km : ℚ
deriving DecidableEq, Repr

/-- Line 220: `pd.Timestamp.now() - to_timedelta(now.dayofweek)`, i.e. the
Monday at or before the clock reading (day 0 is a Monday, so `dayofweek` is
`emod 7`). -/
def current_week_start (now : ℤ) : ℤ := now - now % 7

/-- Line 223: records whose date is on or after the current week start. -/
def this_week (records : List AggRecord) (now : ℤ) : List AggRecord :=
  records.filter (fun r => decide (current_week_start now ≤ r.date))

/-- Line 226: `this_week_df['duration_min'].sum()`. -/
def this_week_duration (records : List AggRecord) (now : ℤ) : ℚ :=
  ((this_week records now).map AggRecord.duration_min).sum

/-- Line 227: `this_week_df['distance_km'].sum()`. -/
def this_week_distance (records : List AggRecord) (now : ℤ) : ℚ :=
  ((this_week records now).map AggRecord.distance_km).sum

/-- The label pandas `resample('W-MON')` assigns to a date: weekly bins end
on Mondays and are right-closed and right-labelled, so a date is labelled by
the first Monday at or after it (the bin `(previous Monday, Monday]`, i.e.
Tuesday through Monday). -/
def wmonLabel (d : ℤ) : ℤ := d + (7 - d % 7) % 7

/-- Duration sum of the records falling in the `W-MON` bin labelled `b`
(0 when the bin is empty, as pandas `sum()` of an empty group). -/
def bucket_sum (records : List AggRecord) (b : ℤ) : ℚ :=
  ((records.filter (fun r => decide (wmonLabel r.date = b))).map AggRecord.duration_min).sum

/-- The regular weekly grid of bin labels from `lo` to `hi` (both Mondays),
as produced by a pandas resample over that span. -/
def weekly_range (lo hi : ℤ) : List ℤ :=
  (List.range ((hi - lo).toNat / 7 + 1)).map (fun (i : ℕ) => lo + 7 * (i : ℤ))

/-- Line 243: `df_filtered.set_index('date').resample('W-MON')[['duration_min']].sum()`.
Pandas emits one row per weekly bin from the bin of the earliest date to the
bin of the latest date, zero-filling bins with no rows. -/
def df_weekly (records : List AggRecord) : List (ℤ × ℚ) :=
  match records.map (fun r => wmonLabel r.date) with
  | [] => []
  | a :: rest =>
      (weekly_range (rest.foldl min a) (rest.foldl max a)).map
        (fun b => (b, bucket_sum records b))

/-- Lines 235-239: optional filtering of the records to one category. -/
def df_filtered (records : List AggRecord) (filt : String) : List AggRecord :=
  if filt = "All Activities" then records
  else records.filter (fun r => decide (r.category = filt))

/-- Lines 244-245: keep only weekly buckets dated within the last 12 weeks
(`pd.Timedelta(weeks=12)` is 84 days). -/
def df_viz (records : List AggRecord) (now : ℤ) : List (ℤ × ℚ) :=
  (df_weekly records).filter (fun p => decide (now - 84 ≤ p.1))

/-- The Dashboard summary (lines 218-245) as a function of the loaded records
and the clock reading: total workout count, this-week duration and distance,
and the 12-week weekly volume series. -/
def summarize (records : List AggRecord) (now : ℤ) : ℕ × ℚ × ℚ × List (ℤ × ℚ) :=
  (records.length, this_week_duration records now, this_week_distance records now,
   df_viz records now)

/-- The Monday starting the ISO week containing `d`, following the spec's
words for the weekly-series bucket key (the Monday at or before `d`). -/
def iso_week_start (d : ℤ) : ℤ := d - d % 7

/-- A session state filled the way the Log Workout form would fill it, used
as a base point for concrete evaluations. -/
def baseState : SessionState :=
  { date := 0, category := "Running", duration := 30, notes := "n", rpe := 5,
    subtype_run := "Easy Run", subtype_ride := "Easy Spin", structure_input := "",
    distance := 0, distance_cycle := 0, distance_swim := 0, manual_pace := false,
    pace_input := "", confirm_save := true, warning_msg := none, success_msg := none }

/- ------------------------------------------------------------------ -/
/- Helper lemmas                                                       -/
/- ------------------------------------------------------------------ -/

theorem pyTrunc_eq_floor (q : ℚ) (h : 0 ≤ q) : pyTrunc q = ⌊q⌋ := by
  unfold pyTrunc
  rw [if_neg (not_lt.mpr h)]

theorem running_pace_eq (duration distance : ℚ) (hdur : 0 ≤ duration)
    (hdist : 0 < distance) :
    running_pace duration distance =
      toString ⌊duration / distance⌋ ++ ":" ++
        pad2 ⌊(duration / distance - (⌊duration / distance⌋ : ℚ)) * 60⌋ ++ " /km" := by
  have hp : 0 ≤ duration / distance := div_nonneg hdur hdist.le
  simp only [running_pace]
  rw [pyTrunc_eq_floor _ hp,
    pyTrunc_eq_floor _ (mul_nonneg (sub_nonneg.mpr (Int.floor_le _)) (by norm_num))]

theorem pad2_length (n : ℤ) (h0 : 0 ≤ n) (h60 : n < 60) : (pad2 n).length = 2 := by
  interval_cases n <;> decide

theorem foldl_min_le_init (l : List ℤ) (a : ℤ) : l.foldl min a ≤ a := by
  induction l generalizing a with
  | nil => simp
  | cons b t ih => exact le_trans (ih (min a b)) (min_le_left a b)

theorem foldl_min_le (l : List ℤ) : ∀ a x : ℤ, x ∈ l → l.foldl min a ≤ x := by
  induction l with
  | nil => intro a x hx; cases hx
  | cons b t ih =>
    intro a x hx
    rcases List.mem_cons.mp hx with h | h
    · subst h
      exact le_trans (foldl_min_le_init t (min a x)) (min_le_right a x)
    · exact ih (min a b) x h

theorem le_foldl_max_init (l : List ℤ) (a : ℤ) : a ≤ l.foldl max a := by
  induction l generalizing a with
  | nil => simp
  | cons b t ih => exact le_trans (le_max_left a b) (ih (max a b))

theorem le_foldl_max (l : List ℤ) : ∀ a x : ℤ, x ∈ l → x ≤ l.foldl max a := by
  induction l with
  | nil => intro a x hx; cases hx
  | cons b t ih =>
    intro a x hx
    rcases List.mem_cons.mp hx with h | h
    · subst h
      exact le_trans (le_max_right a x) (le_foldl_max_init t (max a x))
    · exact ih (max a b) x h

theorem foldl_min_mem (l : List ℤ) : ∀ a : ℤ, l.foldl min a = a ∨ l.foldl min a ∈ l := by
  induction l with
  | nil => intro a; exact Or.inl rfl
  | cons b t ih =>
    intro a
    rcases ih (min a b) with h | h
    · rcases min_choice a b with hm | hm
      · exact Or.inl (h.trans hm)
      · exact Or.inr (by rw [List.foldl_cons, h, hm]; exact List.mem_cons_self b t)
    · exact Or.inr (List.mem_cons_of_mem b h)

theorem wmonLabel_emod (d : ℤ) : wmonLabel d % 7 = 0 := by
  unfold wmonLabel
  omega

theorem mem_weekly_range (lo hi b : ℤ) (h1 : lo ≤ b) (h2 : b ≤ hi)
    (h3 : (b - lo) % 7 = 0) : b ∈ weekly_range lo hi := by
  have hmem : (b - lo).toNat / 7 ∈ List.range ((hi - lo).toNat / 7 + 1) :=
    List.mem_range.mpr (by omega)
  have heq : lo + 7 * (((b - lo).toNat / 7 : ℕ) : ℤ) = b := by omega
  unfold weekly_range
  have h4 : lo + 7 * (((b - lo).toNat / 7 : ℕ) : ℤ) ∈
      (List.range ((hi - lo).toNat / 7 + 1)).map (fun i : ℕ => lo + 7 * (i : ℤ)) :=
    List.mem_map_of_mem (fun i : ℕ => lo + 7 * (i : ℤ)) hmem
  rw [heq] at h4
  exact h4

theorem bucket_sum_empty (records : List AggRecord) (b : ℤ)
    (h : ∀ r ∈ records, wmonLabel r.date ≠ b) : bucket_sum records b = 0 := by
  unfold bucket_sum
  rw [List.filter_eq_nil_iff.mpr (fun r hr => by simpa using h r hr)]
  rfl

/- ------------------------------------------------------------------ -/
/- Claim theorems                                                      -/
/- ------------------------------------------------------------------ -/

/-- C8: if the confirmation flag is false when `save_workout_callback` runs,
the callback performs no persistence (`add_workout` is not called, hence the
`none`) and leaves every form field unchanged, setting only the warning
message before returning. -/
theorem unconfirmed_save_is_noop (s : SessionState) (h : s.confirm_save = false) :
    save_workout_callback s = ({ s with warning_msg := some confirmWarning }, none) := by
  unfold save_workout_callback
  rw [if_pos h]

/-- Witness for C8 at a concrete unconfirmed state. -/
theorem unconfirmed_save_is_noop_witness :
    save_workout_callback { baseState with confirm_save := false } =
      ({ baseState with confirm_save := false, warning_msg := some confirmWarning }, none) :=
  unconfirmed_save_is_noop { baseState with confirm_save := false } rfl

/-- C9: for Running, a provided manual override takes precedence over the
distance rule: when `manual_pace` is set, the override string is returned
verbatim (including the empty string), even when `distance_km = 0`. -/
theorem manual_pace_verbatim (s : SessionState) (hc : s.confirm_save = true)
    (hcat : s.category = "Running") (hm : s.manual_pace = true) :
    (save_workout_callback s).2.map WorkoutRecord.pace = some s.pace_input := by
  simp [save_workout_callback, hc, hcat, hm]

/-- Witness for C9: empty override with zero distance is stored verbatim. -/
theorem manual_pace_verbatim_witness :
    (save_workout_callback
        { baseState with manual_pace := true, pace_input := "", distance := 0 }).2.map
      WorkoutRecord.pace = some "" :=
  manual_pace_verbatim
    { baseState with manual_pace := true, pace_input := "", distance := 0 } rfl rfl rfl

/-- C4: for every Running input with `distance_km > 0`, `duration_min > 0`
and no manual override, the derived pace string is
`"{minutes}:{seconds:02d} /km"` with `minutes = floor(duration/distance)` and
`seconds = floor((duration/distance - minutes) * 60)`. -/
theorem running_pace_spec_formula (s : SessionState)
    (hc : s.confirm_save = true) (hcat : s.category = "Running")
    (hm : s.manual_pace = false) (hd : 0 < s.distance) (ht : 0 < s.duration) :
    (save_workout_callback s).2.map WorkoutRecord.pace =
      some (toString ⌊s.duration / s.distance⌋ ++ ":" ++
        pad2 ⌊(s.duration / s.distance - (⌊s.duration / s.distance⌋ : ℚ)) * 60⌋ ++ " /km") := by
  simp [save_workout_callback, hc, hcat, hm, hd]
  exact running_pace_eq s.duration s.distance ht.le hd

/-- Witness for C4: duration 30 and distance 5 give pace "6:00 /km". -/
theorem running_pace_spec_formula_witness :
    (save_workout_callback { baseState with distance := 5 }).2.map WorkoutRecord.pace =
      some "6:00 /km" := by
  rw [running_pace_spec_formula { baseState with distance := 5 } rfl rfl rfl
    (by decide) (by decide)]
  norm_num [baseState]
  decide

/-- C10: for every Running input with `distance_km > 0`, `duration_min ≥ 0`
and no manual override, the seconds component of the computed pace lies in
0..59 and the pace string is minutes, a colon, exactly two second digits,
and " /km". -/
theorem running_pace_wellformed (s : SessionState)
    (hc : s.confirm_save = true) (hcat : s.category = "Running")
    (hm : s.manual_pace = false) (hd : 0 < s.distance) (ht : 0 ≤ s.duration) :
    ∃ m sec : ℤ, 0 ≤ sec ∧ sec < 60 ∧ (pad2 sec).length = 2 ∧
      (save_workout_callback s).2.map WorkoutRecord.pace =
        some (toString m ++ ":" ++ pad2 sec ++ " /km") := by
  have hp : 0 ≤ s.duration / s.distance := div_nonneg ht hd.le
  set p := s.duration / s.distance with hpdef
  have hs0 : 0 ≤ ⌊(p - (⌊p⌋ : ℚ)) * 60⌋ :=
    Int.floor_nonneg.mpr (mul_nonneg (sub_nonneg.mpr (Int.floor_le _)) (by norm_num))
  have hs60 : ⌊(p - (⌊p⌋ : ℚ)) * 60⌋ < 60 := by
    have hlt : (p - (⌊p⌋ : ℚ)) * 60 < 60 := by
      have h1 : p - (⌊p⌋ : ℚ) < 1 := by
        have := Int.lt_floor_add_one p
        linarith
      linarith
    exact Int.floor_lt.mpr (by exact_mod_cast hlt)
  refine ⟨⌊p⌋, ⌊(p - (⌊p⌋ : ℚ)) * 60⌋, hs0, hs60, pad2_length _ hs0 hs60, ?_⟩
  simp [save_workout_callback, hc, hcat, hm, hd]
  exact running_pace_eq s.duration s.distance ht hd

/-- Witness for C10 at duration 100, distance 7 (pace "14:17 /km"). -/
theorem running_pace_wellformed_witness :
    ∃ m sec : ℤ, 0 ≤ sec ∧ sec < 60 ∧ (pad2 sec).length = 2 ∧
      (save_workout_callback
          { baseState with duration := 100, distance := 7 }).2.map WorkoutRecord.pace =
        some (toString m ++ ":" ++ pad2 sec ++ " /km") :=
  running_pace_wellformed { baseState with duration := 100, distance := 7 }
    rfl rfl rfl (by decide) (by decide)

/-- C1 counterexample: the claim says a category outside the enumerated set
makes the record construction fail with an InvalidCategory signal rather
than silently defaulting; at category "Yoga" the callback instead persists a
record whose sub_type, distance and pace are silently defaulted. -/
theorem unknown_category_accepted_cex :
    (save_workout_callback
        { baseState with category := "Yoga", distance := 5, structure_input := "4x400m" }).2 =
      some { date := 0, category := "Yoga", sub_type := "Normal", duration_min := 30,
             distance_km := 0, pace := "N/A", «structure» := "", rpe := 5, notes := "n" } := by
  decide

/-- C1 (amended): for every category outside the enumerated set, the
record-construction logic does not fail: it silently defaults `sub_type` to
"Normal", `structure` to "", `distance_km` to 0 and `pace` to "N/A", and
persists the record. -/
theorem unknown_category_silent_default (s : SessionState)
    (hc : s.confirm_save = true)
    (h : s.category ∉ (["Running", "Cycling", "Swimming", "Gym", "Stretching"] : List String)) :
    (save_workout_callback s).2 =
      some { date := s.date, category := s.category, sub_type := "Normal",
             duration_min := s.duration, distance_km := 0, pace := "N/A",
             «structure» := "", rpe := s.rpe, notes := s.notes } := by
  simp only [List.mem_cons, List.not_mem_nil, or_false, not_or] at h
  obtain ⟨h1, h2, h3, h4, h5⟩ := h
  simp [save_workout_callback, hc, h1, h2, h3]

/-- Witness for the amended C1 at the unknown category "Pilates". -/
theorem unknown_category_silent_default_witness :
    (save_workout_callback { baseState with category := "Pilates" }).2 =
      some { date := 0, category := "Pilates", sub_type := "Normal", duration_min := 30,
             distance_km := 0, pace := "N/A", «structure» := "", rpe := 5, notes := "n" } :=
  unknown_category_silent_default { baseState with category := "Pilates" } rfl (by decide)

/-- C5 counterexample: the claim says every input with `duration_min ≤ 0`
and no manual override yields pace "N/A"; for Running with duration 0 and
distance 5 the code instead computes the pace string "0:00 /km". -/
theorem na_guard_duration_cex :
    (save_workout_callback { baseState with duration := 0, distance := 5 }).2.map
        WorkoutRecord.pace = some "0:00 /km" ∧ ("0:00 /km" : String) ≠ "N/A" := by
  constructor
  · norm_num [save_workout_callback, baseState, running_pace, pyTrunc]
    decide
  · decide

/-- C5 (amended): with no manual override, the pace derivation returns
"N/A" whenever the active category's distance is ≤ 0, and for Cycling also
when duration ≤ 0, and for every category without a pace concept; it never
raises.  (For Running with distance > 0 it computes a pace string even when
duration ≤ 0, so the claim's "N/A" guard on duration does not hold there.) -/
theorem pace_na_cases (s : SessionState) (hc : s.confirm_save = true)
    (hm : s.manual_pace = false)
    (hr : s.category = "Running" → s.distance ≤ 0)
    (hcy : s.category = "Cycling" → s.distance_cycle ≤ 0 ∨ s.duration ≤ 0) :
    (save_workout_callback s).2.map WorkoutRecord.pace = some "N/A" := by
  by_cases h1 : s.category = "Running"
  · simp [save_workout_callback, hc, hm, h1, not_lt.mpr (hr h1)]
  · by_cases h2 : s.category = "Cycling"
    · have hcond : ¬ (0 < s.distance_cycle ∧ 0 < s.duration) := by
        rcases hcy h2 with h | h
        · exact fun hh => absurd hh.1 (not_lt.mpr h)
        · exact fun hh => absurd hh.2 (not_lt.mpr h)
      simp [save_workout_callback, hc, h1, h2, hcond]
    · simp [save_workout_callback, hc, h1, h2]

/-- Witness for the amended C5: Running with distance 0 gives pace "N/A". -/
theorem pace_na_cases_witness :
    (save_workout_callback baseState).2.map WorkoutRecord.pace = some "N/A" :=
  pace_na_cases baseState rfl rfl (fun _ => le_refl 0) (fun h => absurd h (by decide))

/-- C6: whenever the built record's sub_type is not an interval/workout type
for its category (the source's `is_interval` condition, lines 163-169), the
record's structure field is the empty string, even when a non-empty
structure string was supplied as input. -/
theorem nonworkout_structure_empty (s : SessionState) (r : WorkoutRecord)
    (hc : s.confirm_save = true)
    (hsave : (save_workout_callback s).2 = some r)
    (hni : ¬ ((r.category = "Running" ∨ r.category = "Cycling") ∧ r.sub_type = "Workout")) :
    r.«structure» = "" := by
  simp [save_workout_callback, hc] at hsave
  subst hsave
  by_cases h1 : s.category = "Running"
  · simp [h1] at hni ⊢
    simp [hni]
  · by_cases h2 : s.category = "Cycling"
    · simp [h1, h2] at hni ⊢
      simp [hni]
    · simp [h1, h2]

/-- Witness for C6: an Easy Run with a stray structure string "4x400m" is
saved with structure forced to the empty string. -/
theorem nonworkout_structure_empty_witness :
    (save_workout_callback { baseState with structure_input := "4x400m" }).2 =
      some { date := 0, category := "Running", sub_type := "Easy Run", duration_min := 30,
             distance_km := 0, pace := "N/A", «structure» := "", rpe := 5, notes := "n" } ∧
    ({ date := 0, category := "Running", sub_type := "Easy Run", duration_min := 30,
       distance_km := 0, pace := "N/A", «structure» := "", rpe := 5,
       notes := "n" } : WorkoutRecord).«structure» = "" :=
  ⟨by decide, nonworkout_structure_empty { baseState with structure_input := "4x400m" } _
    rfl (by decide) (by decide)⟩

/-- C2: evaluation at the failing input.  The claim (and the chart's own
"Week Starting" axis label) keys each bucket by the Monday starting the ISO
week of the record's date; the code's `resample('W-MON')` uses right-closed,
right-labelled weekly bins, so a record dated Tuesday day 8 (2024-01-09) is
bucketed under Monday day 14 (2024-01-15), not under the ISO week start
Monday day 7 (2024-01-08). -/
theorem wmon_resample_tuesday_eval :
    df_weekly [{ date := 8, category := "Running", duration_min := 30, distance_km := 5 }] =
      [(14, 30)] ∧ iso_week_start 8 = 7 ∧ (14 : ℤ) ≠ 7 := by
  refine ⟨?_, by decide, by decide⟩
  norm_num [df_weekly, weekly_range, bucket_sum, wmonLabel, List.range_succ]

/-- C3 counterexample: the claim says weeks with zero records produce no
bucket; with records only on Mondays day 0 and day 14, the resample emits a
bucket (7, 0) for the record-free week in between. -/
theorem weekly_series_gap_zero_filled_cex :
    df_weekly [{ date := 0, category := "Running", duration_min := 30, distance_km := 5 },
        { date := 14, category := "Running", duration_min := 40, distance_km := 5 }] =
      [(0, 30), (7, 0), (14, 40)] ∧
    wmonLabel 0 ≠ 7 ∧ wmonLabel 14 ≠ 7 := by
  refine ⟨?_, by decide, by decide⟩
  norm_num [df_weekly, weekly_range, bucket_sum, wmonLabel, List.range_succ,
    show Int.toNat 14 = 14 from rfl]

/-- C3 (amended): the weekly series is dense, not sparse: every weekly bin
label `b` lying between the earliest and latest bin of the input, with no
record falling in it, still produces a bucket, with duration sum 0. -/
theorem weekly_series_empty_week_bucket (records : List AggRecord) (b : ℤ)
    (hmod : b % 7 = 0)
    (hlo : ∃ r ∈ records, wmonLabel r.date ≤ b)
    (hhi : ∃ r ∈ records, b ≤ wmonLabel r.date)
    (hempty : ∀ r ∈ records, wmonLabel r.date ≠ b) :
    (b, (0 : ℚ)) ∈ df_weekly records := by
  obtain ⟨rl, hrl, hrlb⟩ := hlo
  obtain ⟨rh, hrh, hbrh⟩ := hhi
  cases records with
  | nil => cases hrl
  | cons r0 rs =>
    have hdfw : df_weekly (r0 :: rs) =
        (weekly_range ((rs.map fun r => wmonLabel r.date).foldl min (wmonLabel r0.date))
            ((rs.map fun r => wmonLabel r.date).foldl max (wmonLabel r0.date))).map
          (fun x => (x, bucket_sum (r0 :: rs) x)) := rfl
    rw [hdfw]
    set a := wmonLabel r0.date with ha
    set rest := rs.map fun r => wmonLabel r.date with hrest
    have hmin : ∀ x ∈ a :: rest, rest.foldl min a ≤ x := by
      intro x hx
      rcases List.mem_cons.mp hx with h | h
      · subst h; exact foldl_min_le_init rest a
      · exact foldl_min_le rest a x h
    have hmax : ∀ x ∈ a :: rest, x ≤ rest.foldl max a := by
      intro x hx
      rcases List.mem_cons.mp hx with h | h
      · subst h; exact le_foldl_max_init rest a
      · exact le_foldl_max rest a x h
    have hlab_l : wmonLabel rl.date ∈ a :: rest := by
      rcases List.mem_cons.mp hrl with h | h
      · rw [h, ha]; exact List.mem_cons_self _ _
      · exact List.mem_cons_of_mem _ (by rw [hrest]; exact List.mem_map_of_mem _ h)
    have hlab_h : wmonLabel rh.date ∈ a :: rest := by
      rcases List.mem_cons.mp hrh with h | h
      · rw [h, ha]; exact List.mem_cons_self _ _
      · exact List.mem_cons_of_mem _ (by rw [hrest]; exact List.mem_map_of_mem _ h)
    have hlo_le : rest.foldl min a ≤ b := le_trans (hmin _ hlab_l) hrlb
    have hhi_le : b ≤ rest.foldl max a := le_trans hbrh (hmax _ hlab_h)
    have hlo_mod : rest.foldl min a % 7 = 0 := by
      rcases foldl_min_mem rest a with h | h
      · rw [h, ha]; exact wmonLabel_emod _
      · rw [hrest] at h
        obtain ⟨r, hr, hrq⟩ := List.mem_map.mp h
        rw [← hrq]; exact wmonLabel_emod _
    have hb : b ∈ weekly_range (rest.foldl min a) (rest.foldl max a) :=
      mem_weekly_range _ _ _ hlo_le hhi_le (by omega)
    have h5 : (b, bucket_sum (r0 :: rs) b) ∈
        (weekly_range (rest.foldl min a) (rest.foldl max a)).map
          (fun x => (x, bucket_sum (r0 :: rs) x)) :=
      List.mem_map_of_mem _ hb
    rw [bucket_sum_empty (r0 :: rs) b hempty] at h5
    exact h5

/-- Witness for the amended C3: with records on days 0 and 14 only, the
record-free Monday 7 yields the bucket (7, 0). -/
theorem weekly_series_empty_week_bucket_witness :
    ((7 : ℤ), (0 : ℚ)) ∈ df_weekly
      [{ date := 0, category := "Running", duration_min := 30, distance_km := 5 },
       { date := 14, category := "Running", duration_min := 40, distance_km := 5 }] :=
  weekly_series_empty_week_bucket _ 7 (by decide) (by decide) (by decide) (by decide)

/-- C7 counterexample: the claim says the reference instant is an injected
parameter rather than the global clock; the code instead reads
`pd.Timestamp.now()`, and the Dashboard summary over the identical record
collection differs between a run with clock reading day 12 and a run with
clock reading day 40, so the summary is not a function of the record
collection alone. -/
theorem summary_clock_dependence_cex :
    summarize [{ date := 9, category := "Running", duration_min := 30, distance_km := 5 }] 12 ≠
      summarize [{ date := 9, category := "Running", duration_min := 30, distance_km := 5 }] 40 := by
  norm_num [summarize, this_week_duration, this_week_distance, this_week, current_week_start,
    df_viz, df_weekly, weekly_range, bucket_sum, wmonLabel, List.range_succ, Prod.ext_iff]

/-- C7 (amended): once the clock reading is made an explicit input, the
aggregation is deterministic: identical record collections and identical
reference instants yield identical summaries, with no other state entering. -/
theorem summarize_deterministic (r1 r2 : List AggRecord) (n1 n2 : ℤ)
    (hr : r1 = r2) (hn : n1 = n2) : summarize r1 n1 = summarize r2 n2 := by
  rw [hr, hn]

/-- Witness for the amended C7 at a concrete collection and instant. -/
theorem summarize_deterministic_witness :
    summarize [{ date := 9, category := "Running", duration_min := 30, distance_km := 5 }] 12 =
      summarize [{ date := 9, category := "Running", duration_min := 30, distance_km := 5 }] 12 :=
  summarize_deterministic _ _ _ _ rfl rfl

end FitTrack
